import Mathlib

/-!
# SentinelMCP — verification of the agent-orchestration pipeline

Shallow embedding of the multi-stage agent orchestration pipeline of the
SentinelMCP repository (`src/agents/orchestrator.py` and
`src/rag/retriever.py`), together with theorems settling the spec claims.

Python floats are modelled as exact rationals (`ℚ`), Python strings as
`List Char`, Python dicts with optional keys as structures with `Option`
fields, and Python exceptions as `Except String`.
-/

namespace SentinelMCP

/-! ## Data model (spec §3, `orchestrator.py`) -/

/-- A retrieved document record (`RetrievalService.retrieve` output format):
`id`, `content`, `distance` (may be absent / `None`), `source`. -/
structure DocumentRecord where
  id : String
  content : List Char
  distance : Option ℚ
  source : String
  deriving Repr, DecidableEq

/-- Actions a `trace` entry can record in `AgentOrchestrator._execute_workflow`. -/
inductive Action where
  | processed
  | error
  | humanReviewRequired
  deriving Repr, DecidableEq

/-- One entry of the workflow trace (`step`, `agent`, `action`, optional
`error` message).  The wall-clock `timestamp` field is not modelled. -/
structure TraceEntry where
  step : Nat
  agent : String
  action : Action
  errMsg : Option String
  deriving Repr, DecidableEq

/-! ## AnalysisAgent._calculate_confidence (orchestrator.py lines 160–173) -/

/-- Translation of `AnalysisAgent._calculate_confidence`:

```python
if not documents: return 0.0
base_confidence = min(len(documents) * 0.2, 1.0)
distances = [doc.get('distance', 0.5) for doc in documents]
avg_distance = sum(distances) / len(distances) if distances else 0.5
distance_factor = max(0.1, 1.0 - avg_distance)
return min(base_confidence * distance_factor, 1.0)
``` -/
def calculateConfidence (documents : List DocumentRecord) : ℚ :=
  if documents.isEmpty then 0
  else
    let baseConfidence : ℚ := min ((documents.length : ℚ) * 0.2) 1.0
    let distances : List ℚ := documents.map (fun doc => doc.distance.getD 0.5)
    let avgDistance : ℚ :=
      if distances.isEmpty then 0.5 else distances.sum / (distances.length : ℚ)
    let distanceFactor : ℚ := max 0.1 (1.0 - avgDistance)
    min (baseConfidence * distanceFactor) 1.0

/-- The confidence formula as written in the spec (§4.4), for comparison with
the code's `calculateConfidence`:

```
base            = min(0.2 * document_count, 1.0)
avg_distance    = mean(distance_i, default 0.5 when a document lacks distance);
                  0.5 if document list empty
distance_factor = max(0.1, 1.0 - avg_distance)
confidence      = min(base * distance_factor, 1.0)
``` -/
def confidenceSpecFormula (documents : List DocumentRecord) : ℚ :=
  let base : ℚ := min (0.2 * (documents.length : ℚ)) 1.0
  let avgDistance : ℚ :=
    if documents.isEmpty then 0.5
    else (documents.map (fun doc => doc.distance.getD 0.5)).sum / (documents.length : ℚ)
  let distanceFactor : ℚ := max 0.1 (1.0 - avgDistance)
  min (base * distanceFactor) 1.0

/-- Five documents whose distances average `0.3` (all equal to `0.3`),
the concrete instance named by the spec's testable property. -/
def fiveDocsAvg03 : List DocumentRecord :=
  [⟨"d1", [], some 0.3, "s1"⟩, ⟨"d2", [], some 0.3, "s2"⟩,
   ⟨"d3", [], some 0.3, "s3"⟩, ⟨"d4", [], some 0.3, "s4"⟩,
   ⟨"d5", [], some 0.3, "s5"⟩]

/-! ## String primitives (Python `str` operations on `List Char`) -/

/-- Scanner of `removeAll`, structurally recursive on a fuel counter so
the kernel can evaluate it; every step consumes at least one character,
so with `fuel = s.length` the fuel-exhaustion branch is unreachable. -/
def removeAllAux (pat : List Char) : Nat → List Char → List Char
  | 0, s => s
  | _ + 1, [] => []
  | fuel + 1, c :: rest =>
    if 0 < pat.length ∧ pat.isPrefixOf (c :: rest) then
      removeAllAux pat fuel ((c :: rest).drop pat.length)
    else
      c :: removeAllAux pat fuel rest

/-- Python's `str.replace(pat, "")` for a pattern `pat`: remove every
occurrence of `pat`, scanning left to right without rescanning text that
was already passed (occurrences created by a removal are not removed). -/
def removeAll (pat s : List Char) : List Char :=
  removeAllAux pat s.length s

/-- Python's substring containment `pat in s`. -/
def containsSub (pat : List Char) : List Char → Bool
  | [] => pat.isEmpty
  | c :: rest => pat.isPrefixOf (c :: rest) || containsSub pat rest

/-- Remove leading whitespace (half of Python's `str.strip()`). -/
def trimLeft : List Char → List Char
  | [] => []
  | c :: rest => if c.isWhitespace then trimLeft rest else c :: rest

/-- Python's `str.strip()`: remove leading and trailing whitespace. -/
def trim (s : List Char) : List Char :=
  ((trimLeft s).reverse |> trimLeft).reverse

/-- Python's `str.lower()` (ASCII-relevant part). -/
def lowerStr (s : List Char) : List Char :=
  s.map Char.toLower

/-! ## PlanningAgent._reformulate_query (orchestrator.py lines 42–49) -/

/-- The fixed interrogative-word table of `PlanningAgent._reformulate_query`. -/
def questionWords : List String :=
  ["what", "how", "why", "when", "where", "who", "which"]

/-- Translation of `PlanningAgent._reformulate_query`:

```python
reformulated = question.lower()
for word in question_words:
    reformulated = reformulated.replace(f"{word} ", "")
return reformulated.strip()
``` -/
def reformulateQuery (question : List Char) : List Char :=
  let reformulated := lowerStr question
  let reformulated :=
    questionWords.foldl (fun acc word => removeAll (word.data ++ [' ']) acc) reformulated
  trim reformulated

/-! ## GuardAgent._check_policies (orchestrator.py lines 199–224) -/

/-- The fixed sensitive-term list of `GuardAgent._check_policies`. -/
def sensitivePatterns : List String :=
  ["password", "ssn", "credit card", "api key"]

/-- Result of `GuardAgent._check_policies`. -/
structure PolicyCheck where
  approved : Bool
  violations : List String
  requiresReview : Bool
  deriving Repr, DecidableEq

/-- Translation of `GuardAgent._check_policies`:

```python
violations = []; requires_review = False
response_lower = response.lower()
for pattern in sensitive_patterns:
    if pattern in response_lower:
        violations.append(f"Contains potentially sensitive information: {pattern}")
        requires_review = True
if len(response) > 2000:
    violations.append("Response is very long and may need human review")
    requires_review = True
approved = len(violations) == 0
``` -/
def checkPolicies (response : List Char) : PolicyCheck :=
  let responseLower := lowerStr response
  let afterSensitive : List String × Bool :=
    sensitivePatterns.foldl
      (fun acc pattern =>
        if containsSub pattern.data responseLower then
          (acc.1 ++ ["Contains potentially sensitive information: " ++ pattern], true)
        else acc)
      ([], false)
  let afterLength : List String × Bool :=
    if 2000 < response.length then
      (afterSensitive.1 ++ ["Response is very long and may need human review"], true)
    else afterSensitive
  { approved := afterLength.1.length = 0
    violations := afterLength.1
    requiresReview := afterLength.2 }

/-! ## Workflow context and stage results -/

/-- The `plan` dict produced by `PlanningAgent.process`. -/
structure Plan where
  originalQuestion : List Char
  reformulatedQuery : List Char
  retrievalStrategy : String
  requiresTools : List String
  estimatedComplexity : String
  deriving Repr, DecidableEq

/-- The `retrieval_result` dict produced by `RetrievalAgent.process`. -/
structure RetrievalResult where
  queryUsed : List Char
  documentsFound : Nat
  documents : List DocumentRecord
  deriving Repr, DecidableEq

/-- The `analysis_result` dict produced by `AnalysisAgent.process`. -/
structure AnalysisResult where
  response : List Char
  toolResults : List (String × String)
  sources : List String
  confidence : ℚ
  deriving Repr, DecidableEq

/-- The `guard_result` dict produced by `GuardAgent.process`. -/
structure GuardResult where
  policyApproved : Bool
  policyViolations : List String
  requiresHumanReview : Bool
  modifiedResponse : List Char
  deriving Repr, DecidableEq

/-- The workflow context dict: each key the stages read or write is an
optional field (`none` models the key being absent).  The opaque
`conversation_id`/`timestamp` seeds are not modelled. -/
structure Ctx where
  question : Option (List Char)
  k : Option Int
  plan : Option Plan
  retrievalResult : Option RetrievalResult
  analysisResult : Option AnalysisResult
  guardResult : Option GuardResult
  deriving Repr, DecidableEq

/-- A context with every key absent. -/
def emptyCtx : Ctx :=
  { question := none, k := none, plan := none, retrievalResult := none
    analysisResult := none, guardResult := none }

/-- A stage (`Agent.process`): reads the context and either returns the
updated context (the partial-update dict already merged, since a stage
result only adds or overwrites keys) together with the `next_agent` value
(`none` models the key being absent from the result), or raises. -/
def Stage : Type :=
  Ctx → Except String (Ctx × Option String)

/-! ## AgentOrchestrator._execute_workflow (orchestrator.py lines 284–345) -/

/-- The step budget (`max_steps = 10  # Prevent infinite loops`). -/
def maxSteps : Nat := 10

/-- The `while` loop of `_execute_workflow`.  The Python guard is
`current_agent != 'complete' and step < max_steps`; `fuel` stands for
`max_steps - step`, so `step < max_steps` is `0 < fuel` and both counters
move together by one per iteration.  Per iteration: `step += 1`; the
`human` identifier appends a `human_review_required` entry and breaks; a
resolvable agent is run inside `try`: on success the merged context and a
`processed` entry continue the loop with `next_agent` (default
`'complete'`), on an exception an `error` entry is appended and the loop
breaks; an unresolvable identifier only logs (`logger.error`) and breaks,
appending nothing to the trace. -/
def workflowLoop (agents : String → Option Stage) :
    Nat → String → Ctx → List TraceEntry → Nat → Ctx × List TraceEntry
  | 0, _, ctx, trace, _ => (ctx, trace)
  | fuel + 1, currentAgent, ctx, trace, step =>
    if currentAgent = "complete" then (ctx, trace)
    else
      let step1 := step + 1
      if currentAgent = "human" then
        (ctx, trace ++ [⟨step1, "human", Action.humanReviewRequired, none⟩])
      else
        match agents currentAgent with
        | some stage =>
          match stage ctx with
          | Except.ok (ctx2, next) =>
            workflowLoop agents fuel (next.getD "complete") ctx2
              (trace ++ [⟨step1, currentAgent, Action.processed, none⟩]) step1
          | Except.error e =>
            (ctx, trace ++ [⟨step1, currentAgent, Action.error, some e⟩])
        | none => (ctx, trace)

/-- The aggregate `_execute_workflow` returns (orchestrator.py lines 334–345). -/
structure WorkflowResult where
  finalResponse : List Char
  sources : List String
  toolResults : List (String × String)
  confidence : ℚ
  requiresHumanReview : Bool
  trace : List TraceEntry
  deriving Repr, DecidableEq

/-- The result extraction after the loop (orchestrator.py lines 334–345):
each field is read from the context with the dict-`get` default used by
the code (`guard_result.get('modified_response', analysis_result.get('response', ''))`,
etc.). -/
def finalizeWorkflow (ctx : Ctx) (trace : List TraceEntry) : WorkflowResult :=
  { finalResponse :=
      match ctx.guardResult with
      | some g => g.modifiedResponse
      | none =>
        match ctx.analysisResult with
        | some a => a.response
        | none => []
    sources := (ctx.analysisResult.map (·.sources)).getD []
    toolResults := (ctx.analysisResult.map (·.toolResults)).getD []
    confidence := (ctx.analysisResult.map (·.confidence)).getD 0
    requiresHumanReview := (ctx.guardResult.map (·.requiresHumanReview)).getD false
    trace := trace }

/-- Translation of `AgentOrchestrator._execute_workflow`: run the loop from stage
`planning` with `step = 0` and an empty trace, then extract the final
results from the context. -/
def executeWorkflow (agents : String → Option Stage) (ctx : Ctx) : WorkflowResult :=
  let out := workflowLoop agents maxSteps "planning" ctx [] 0
  finalizeWorkflow out.1 out.2

/-- Translation of `AgentOrchestrator.process_request` (orchestrator.py lines 245–282)
restricted to the modelled fields: seed the context from the request and
run the workflow; the final response dict copies the workflow result
fields (with the same dict-`get` defaults).  Total by construction: every
stage fault is absorbed inside `workflowLoop`. -/
def processRequest (agents : String → Option Stage)
    (question : Option (List Char)) (k : Option Int) : WorkflowResult :=
  executeWorkflow agents { emptyCtx with question := question, k := k }

/-! ## RetrievalAgent.process (orchestrator.py lines 73–89) -/

/-- The result-count read of `RetrievalAgent.process`
(`k = context.get('k', 5)`): the dict default `5` applies exactly when
the key is absent. -/
def retrievalK (ctx : Ctx) : Int :=
  ctx.k.getD 5

/-- The query selection of `RetrievalAgent.process`
(`query = plan.get('reformulated_query', context.get('question', ''))`,
with `plan = context.get('plan', {})`). -/
def retrievalQuery (ctx : Ctx) : List Char :=
  match ctx.plan with
  | some plan => plan.reformulatedQuery
  | none => ctx.question.getD []

/-- Translation of `RetrievalAgent.process`, parametrized by the
`VectorIndex` search collaborator (`self.retrieval_service.retrieve`):
build `retrieval_result` from `search query k` and hand off to
`analysis`. -/
def retrievalProcess (search : List Char → Int → List DocumentRecord)
    (ctx : Ctx) : Except String (Ctx × Option String) :=
  let k := retrievalK ctx
  let query := retrievalQuery ctx
  let documents := search query k
  let retrievalResult : RetrievalResult :=
    { queryUsed := query, documentsFound := documents.length, documents := documents }
  Except.ok ({ ctx with retrievalResult := some retrievalResult }, some "analysis")

/-- A search double that records the `k` it was invoked with inside the
single record it returns (`distance := some k`), so theorems can observe
the argument `RetrievalAgent.process` actually passes to
`VectorIndex.search`. -/
def searchSpy : List Char → Int → List DocumentRecord :=
  fun _query k => [⟨"spy", [], some (k : ℚ), "spy"⟩]

/-! ## RetrievalService.retrieve (retriever.py lines 75–114) -/

/-- The raw answer of one `collection.query` call, flattened to the single
query of the batch (the code indexes every field at `[0]`): aligned lists
of ids, contents and metadatas, and the optional distances list. -/
structure RawQueryResults where
  ids : List String
  documents : List (List Char)
  metadatas : List (List (String × String))
  distances : Option (List ℚ)
  deriving Repr, DecidableEq

/-- The result formatting of `RetrievalService.retrieve`
(retriever.py lines 97–107): if the document list is empty nothing is
produced; otherwise record `i` takes `ids[i]`, `documents[i]`,
`distances[i]` when distances are present (`None` otherwise), and the
`source` metadata entry (default `"unknown"`; the whole metadata list
being empty also yields `"unknown"`). -/
def formatResults (results : RawQueryResults) : List DocumentRecord :=
  if results.documents.isEmpty then []
  else
    (List.range results.documents.length).map fun i =>
      { id := (results.ids.getD i "")
        content := (results.documents.getD i [])
        distance := results.distances.map (fun ds => ds.getD i 0)
        source :=
          if results.metadatas.isEmpty then "unknown"
          else (((results.metadatas.getD i []).find?
                  (fun p => p.1 = "source")).map (·.2)).getD "unknown" }

/-- Translation of `RetrievalService.retrieve`, parametrized by the
underlying embed-and-query call (everything inside the `try` up to
`collection.query`, which may raise): the `except Exception` handler
logs and returns `[]`, so every store fault becomes an empty list. -/
def retrieve (queryStore : List Char → Int → Except String RawQueryResults)
    (query : List Char) (k : Int) : List DocumentRecord :=
  match queryStore query k with
  | Except.ok results => formatResults results
  | Except.error _ => []

/-! ## AnalysisAgent._execute_tools (orchestrator.py lines 141–158) -/

/-- Python dict assignment `m[key] = val` on an association list:
overwrite the existing entry or append a new one. -/
def dictSet (m : List (String × String)) (key val : String) :
    List (String × String) :=
  if m.any (fun p => p.1 = key) then
    m.map (fun p => if p.1 = key then (key, val) else p)
  else m ++ [(key, val)]

/-- Python dict lookup returning `None` when absent. -/
def dictGet (m : List (String × String)) (key : String) : Option String :=
  (m.find? (fun p => p.1 = key)).map (·.2)

/-- The `ToolRegistry` (`self.mcp_server.tools`): a name → callable map;
a callable takes the query argument and returns a result or raises. -/
def ToolRegistry : Type :=
  List (String × (List Char → Except String String))

/-- Registry membership (`tool_name in self.mcp_server.tools`). -/
def registryLookup (registry : ToolRegistry) (name : String) :
    Option (List Char → Except String String) :=
  (registry.find? (fun p => p.1 = name)).map (·.2)

/-- One iteration of the `for tool_name in required_tools` loop of
`AnalysisAgent._execute_tools`:

```python
tool_results = {}
for tool_name in required_tools:
    if tool_name in self.mcp_server.tools:
        try:
            if tool_name == 'wikipedia_search':
                result = self.mcp_server.tools[tool_name](query=question)
                tool_results[tool_name] = result
            else:
                tool_results[tool_name] = f"Tool {tool_name} requires specific parameters"
        except Exception as e:
            tool_results[tool_name] = f"Error executing {tool_name}: {str(e)}"
return tool_results
```

An unregistered name falls through the `if` with no entry written; a
registered tool's fault is converted to an error string; the function
never raises. -/
def executeToolsStep (registry : ToolRegistry) (question : List Char)
    (toolResults : List (String × String)) (toolName : String) :
    List (String × String) :=
  match registryLookup registry toolName with
  | none => toolResults
  | some tool =>
    if toolName = "wikipedia_search" then
      match tool question with
      | Except.ok result => dictSet toolResults toolName result
      | Except.error e =>
        dictSet toolResults toolName ("Error executing " ++ toolName ++ ": " ++ e)
    else
      dictSet toolResults toolName
        ("Tool " ++ toolName ++ " requires specific parameters")

/-- The whole `for tool_name in required_tools` loop of `_execute_tools`,
starting from the empty `tool_results` dict. -/
def executeTools (registry : ToolRegistry) (requiredTools : List String)
    (question : List Char) : List (String × String) :=
  requiredTools.foldl (executeToolsStep registry question) []

/-! ## Concrete instances used to exercise the theorems -/

/-- An agent table whose only stage always raises. -/
def failAgents : String → Option Stage :=
  fun s => if s = "planning" then some (fun _ => Except.error "boom") else none

/-- An agent table whose planning stage hands off to an identifier that
resolves to no stage. -/
def bogusNextAgents : String → Option Stage :=
  fun s =>
    if s = "planning" then some (fun ctx => Except.ok (ctx, some "bogus")) else none

/-- An agent table whose only stage always returns itself as `next_agent`
(the cyclic stage named by the step-budget property). -/
def selfLoopAgents : String → Option Stage :=
  fun s =>
    if s = "planning" then some (fun ctx => Except.ok (ctx, some "planning")) else none

/-- A registry holding a single tool named `"consultar_cfdi"`. -/
def exampleRegistry : ToolRegistry :=
  [("consultar_cfdi", fun _ => Except.ok "ok")]

/-- A 2001-character response with no sensitive term in it. -/
def longResponse : List Char :=
  List.replicate 2001 'z'

/-! ## Theorems -/

/-- Helper: the confidence of a non-empty document list is strictly positive:
the base factor is at least `min 0.2 1`, the distance factor at least `0.1`. -/
theorem calculateConfidence_pos (d : DocumentRecord) (ds : List DocumentRecord) :
    0 < calculateConfidence (d :: ds) := by
  unfold calculateConfidence
  rw [if_neg (by simp)]
  apply lt_min
  · apply mul_pos
    · apply lt_min
      · have hlen : (0 : ℚ) < ((d :: ds).length : ℚ) := by
          simp only [List.length_cons]
          positivity
        have h02 : (0 : ℚ) < 0.2 := by norm_num
        exact mul_pos hlen h02
      · norm_num
    · exact lt_of_lt_of_le (by norm_num : (0 : ℚ) < 0.1) (le_max_left _ _)
  · norm_num

/-- C2: for every document list the computed confidence lies in `[0, 1]`,
and it is `0` exactly when the document list is empty (hence strictly
positive on every non-empty list). -/
theorem confidence_in_unit_interval_zero_iff_empty (documents : List DocumentRecord) :
    0 ≤ calculateConfidence documents ∧ calculateConfidence documents ≤ 1 ∧
      (calculateConfidence documents = 0 ↔ documents = []) := by
  rcases documents with _ | ⟨d, ds⟩
  · refine ⟨le_of_eq ?_, ?_, ?_⟩ <;> simp [calculateConfidence]
  · have hpos := calculateConfidence_pos d ds
    have hle : calculateConfidence (d :: ds) ≤ 1 := by
      unfold calculateConfidence
      rw [if_neg (by simp)]
      exact le_trans (min_le_right _ _) (by norm_num)
    refine ⟨le_of_lt hpos, hle, ?_⟩
    constructor
    · intro h
      exact absurd h (ne_of_gt hpos)
    · intro h
      exact absurd h (by simp)

/-- C3: on every non-empty document list the code's confidence equals the
spec's formula (`base = min(0.2·count, 1)`, `avg_distance` the mean with
`0.5` substituted for a missing distance, `distance_factor =
max(0.1, 1 − avg_distance)`, `confidence = min(base·factor, 1)`); in
particular five documents with distances averaging `0.3` score exactly
`0.7`. -/
theorem confidence_matches_spec_formula :
    (∀ documents : List DocumentRecord, documents ≠ [] →
      calculateConfidence documents = confidenceSpecFormula documents) ∧
    calculateConfidence fiveDocsAvg03 = 0.7 := by
  constructor
  · intro documents h
    rcases documents with _ | ⟨d, ds⟩
    · exact absurd rfl h
    · simp only [calculateConfidence, confidenceSpecFormula, List.map_cons,
        List.isEmpty_cons, Bool.false_eq_true, if_false, List.length_cons,
        List.length_map]
      ring_nf
  · simp only [calculateConfidence, fiveDocsAvg03]
    norm_num [min_def, max_def]

/-- Witness for C3: the five-document instance is non-empty and the
equality of code and spec formula holds on it. -/
theorem confidence_matches_spec_formula_witness :
    fiveDocsAvg03 ≠ [] ∧
      calculateConfidence fiveDocsAvg03 = confidenceSpecFormula fiveDocsAvg03 :=
  ⟨by decide, confidence_matches_spec_formula.1 fiveDocsAvg03 (by decide)⟩

/-- Helper: appending the entry for step `step + 1` to a trace whose step
numbers are exactly `1, …, step` yields step numbers `1, …, step + 1`. -/
theorem trace_steps_concat (trace : List TraceEntry) (step : Nat) (e : TraceEntry)
    (h1 : trace.map (·.step) = List.range' 1 step) (he : e.step = step + 1) :
    (trace ++ [e]).map (·.step) = List.range' 1 (step + 1) := by
  rw [List.map_append, h1, List.range'_concat]
  simp [he]
  try omega

/-- Helper: a loop exit that appends one entry for step `step + 1`
preserves the trace-step invariant within the budget. -/
theorem trace_halt_append (trace : List TraceEntry) (step fuel : Nat) (e : TraceEntry)
    (h1 : trace.map (·.step) = List.range' 1 step) (h2 : trace.length = step)
    (he : e.step = step + 1) :
    ((trace ++ [e]).map (·.step) = List.range' 1 (trace ++ [e]).length) ∧
      (trace ++ [e]).length ≤ step + (fuel + 1) := by
  have hm := trace_steps_concat trace step e h1 he
  have hl : (trace ++ [e]).length = step + 1 := by simp [h2]
  constructor
  · rw [hl]
    exact hm
  · rw [hl]
    omega

/-- Helper: a loop exit that appends nothing preserves the trace-step
invariant within the budget. -/
theorem trace_halt_stay (trace : List TraceEntry) (step fuel : Nat)
    (h1 : trace.map (·.step) = List.range' 1 step) (h2 : trace.length = step) :
    (trace.map (·.step) = List.range' 1 trace.length) ∧ trace.length ≤ step + fuel := by
  constructor
  · rw [h2]
    exact h1
  · omega

/-- Helper: loop invariant of `workflowLoop`.  If the incoming trace has
step numbers exactly `1, …, step` (in particular `trace.length = step`),
then the final trace has step numbers exactly `1, …, final length`, and
its length is at most `step + fuel` (each iteration consumes one unit of
fuel and appends at most one entry). -/
theorem workflowLoop_trace_invariant (agents : String → Option Stage) :
    ∀ (fuel : Nat) (currentAgent : String) (ctx : Ctx) (trace : List TraceEntry) (step : Nat),
      trace.map (·.step) = List.range' 1 step →
      trace.length = step →
      ((workflowLoop agents fuel currentAgent ctx trace step).2.map (·.step) =
          List.range' 1 (workflowLoop agents fuel currentAgent ctx trace step).2.length) ∧
        (workflowLoop agents fuel currentAgent ctx trace step).2.length ≤ step + fuel := by
  intro fuel
  induction fuel with
  | zero =>
    intro currentAgent ctx trace step h1 h2
    exact trace_halt_stay trace step 0 h1 h2
  | succ fuel ih =>
    intro currentAgent ctx trace step h1 h2
    rw [workflowLoop]
    by_cases hc : currentAgent = "complete"
    · rw [if_pos hc]
      exact trace_halt_stay trace step (fuel + 1) h1 h2
    · rw [if_neg hc]
      by_cases hh : currentAgent = "human"
      · rw [if_pos hh]
        exact trace_halt_append trace step fuel
          ⟨step + 1, "human", Action.humanReviewRequired, none⟩ h1 h2 rfl
      · rw [if_neg hh]
        cases hag : agents currentAgent with
        | none =>
          exact trace_halt_stay trace step (fuel + 1) h1 h2
        | some stage =>
          dsimp only
          cases hres : stage ctx with
          | error e =>
            exact trace_halt_append trace step fuel
              ⟨step + 1, currentAgent, Action.error, some e⟩ h1 h2 rfl
          | ok p =>
            obtain ⟨ctx2, next⟩ := p
            have hm := trace_steps_concat trace step
              ⟨step + 1, currentAgent, Action.processed, none⟩ h1 rfl
            have hlen : (trace ++ [(⟨step + 1, currentAgent, Action.processed, none⟩ :
                TraceEntry)]).length = step + 1 := by
              simp [h2]
            have hrec := ih (next.getD "complete") ctx2
              (trace ++ [⟨step + 1, currentAgent, Action.processed, none⟩]) (step + 1)
              hm hlen
            exact ⟨hrec.1, Nat.le_trans hrec.2 (by omega)⟩

/-- C1: for every set of stage implementations and every initial context,
the workflow loop terminates (`executeWorkflow` is a total function and
its trace has at most `maxSteps = 10` entries), the step counter
increments by exactly one per iteration (the trace's step numbers are
exactly `1, 2, …, length`), and no trace entry carries a step number
exceeding `maxSteps`; in particular a stage that always returns itself as
`next_agent` runs for exactly the `maxSteps` budget and then stops (last
conjunct). -/
theorem workflow_step_budget (agents : String → Option Stage) (ctx : Ctx) :
    (executeWorkflow agents ctx).trace.length ≤ maxSteps ∧
      ((executeWorkflow agents ctx).trace.map (·.step) =
        List.range' 1 (executeWorkflow agents ctx).trace.length) ∧
      (∀ e ∈ (executeWorkflow agents ctx).trace, e.step ≤ maxSteps) ∧
      (executeWorkflow selfLoopAgents emptyCtx).trace.length = maxSteps := by
  have h := workflowLoop_trace_invariant agents maxSteps "planning" ctx [] 0 rfl rfl
  have htr : (executeWorkflow agents ctx).trace =
      (workflowLoop agents maxSteps "planning" ctx [] 0).2 := rfl
  refine ⟨?_, ?_, ?_, by decide⟩
  · rw [htr]
    simpa using h.2
  · rw [htr]
    exact h.1
  · intro e he
    rw [htr] at he
    have hmem : e.step ∈ (workflowLoop agents maxSteps "planning" ctx [] 0).2.map (·.step) :=
      List.mem_map_of_mem _ he
    rw [h.1] at hmem
    rcases List.mem_range'.mp hmem with ⟨i, hi, hei⟩
    have hle : (workflowLoop agents maxSteps "planning" ctx [] 0).2.length ≤ maxSteps := by
      simpa using h.2
    omega

/-- Helper: one loop iteration whose stage raises appends the error entry
and halts with the context unchanged. -/
theorem workflowLoop_error_step (agents : String → Option Stage)
    (fuel : Nat) (currentAgent : String) (ctx : Ctx) (trace : List TraceEntry)
    (step : Nat) (stage : Stage) (msg : String)
    (hc : currentAgent ≠ "complete") (hh : currentAgent ≠ "human")
    (ha : agents currentAgent = some stage) (he : stage ctx = Except.error msg) :
    workflowLoop agents (fuel + 1) currentAgent ctx trace step =
      (ctx, trace ++ [⟨step + 1, currentAgent, Action.error, some msg⟩]) := by
  rw [workflowLoop, if_neg hc, if_neg hh, ha]
  dsimp only
  rw [he]

/-- C6: any fault raised by a stage's `process` call is caught by the
engine: the loop appends an `error` trace entry carrying that stage's
identifier and the fault message and halts with the context as it was at
the fault.  Composed with `executeWorkflow = finalizeWorkflow ∘ workflowLoop`,
a run whose first stage faults still yields the `WorkflowResult` extracted
from the halt-time context (second conjunct); `processRequest` is a total
function, so it never raises. -/
theorem engine_fault_isolation (agents : String → Option Stage)
    (fuel : Nat) (currentAgent : String) (ctx : Ctx) (trace : List TraceEntry)
    (step : Nat) (stage : Stage) (msg : String)
    (hc : currentAgent ≠ "complete") (hh : currentAgent ≠ "human")
    (ha : agents currentAgent = some stage) (he : stage ctx = Except.error msg) :
    workflowLoop agents (fuel + 1) currentAgent ctx trace step =
      (ctx, trace ++ [⟨step + 1, currentAgent, Action.error, some msg⟩]) ∧
    (∀ (question : Option (List Char)) (k : Option Int) (planStage : Stage) (msg2 : String),
      agents "planning" = some planStage →
      planStage { emptyCtx with question := question, k := k } = Except.error msg2 →
      processRequest agents question k =
        finalizeWorkflow { emptyCtx with question := question, k := k }
          [⟨1, "planning", Action.error, some msg2⟩]) := by
  constructor
  · exact workflowLoop_error_step agents fuel currentAgent ctx trace step stage msg hc hh ha he
  · intro question k planStage msg2 hps hpe
    have h := workflowLoop_error_step agents 9 "planning"
      { emptyCtx with question := question, k := k } [] 0 planStage msg2
      (by decide) (by decide) hps hpe
    unfold processRequest executeWorkflow maxSteps
    rw [show (10 : Nat) = 9 + 1 from rfl, h]
    rfl

/-- Witness for C6: a concrete agent table whose planning stage raises
`"boom"`; the loop halts after one step with the error entry recorded. -/
theorem engine_fault_isolation_witness :
    workflowLoop failAgents (9 + 1) "planning" emptyCtx [] 0 =
      (emptyCtx, [⟨1, "planning", Action.error, some "boom"⟩]) := by
  have h := (engine_fault_isolation failAgents 9 "planning" emptyCtx [] 0
    (fun _ => Except.error "boom") "boom"
    (by decide) (by decide) rfl rfl).1
  simpa using h

/-- C7 (counterexample to the claim as stated): with a planning stage
handing off to the unresolvable identifier `"bogus"`, the run's final
trace consists of the single `processed` entry for planning — the engine
appended no "unknown agent" trace entry before terminating (the event is
only written to the process log, which is not part of the trace). -/
theorem unknown_agent_appends_no_trace_entry :
    (executeWorkflow bogusNextAgents emptyCtx).trace =
      [⟨1, "planning", Action.processed, none⟩] := by
  decide

/-- C7 (amended): whenever the current stage identifier resolves to no
stage implementation (and is neither `complete` nor `human`), the engine
terminates the loop at once, appending nothing to the trace and leaving
the context unchanged. -/
theorem unknown_agent_halts_without_trace_entry (agents : String → Option Stage)
    (fuel : Nat) (currentAgent : String) (ctx : Ctx) (trace : List TraceEntry)
    (step : Nat)
    (hc : currentAgent ≠ "complete") (hh : currentAgent ≠ "human")
    (ha : agents currentAgent = none) :
    workflowLoop agents (fuel + 1) currentAgent ctx trace step = (ctx, trace) := by
  rw [workflowLoop, if_neg hc, if_neg hh, ha]

/-- Witness for the amended C7: the identifier `"bogus"` resolves to no
stage of `bogusNextAgents`, and the loop halts with trace unchanged. -/
theorem unknown_agent_halts_without_trace_entry_witness :
    workflowLoop bogusNextAgents (8 + 1) "bogus" emptyCtx
      [⟨1, "planning", Action.processed, none⟩] 1 =
      (emptyCtx, [⟨1, "planning", Action.processed, none⟩]) :=
  unknown_agent_halts_without_trace_entry bogusNextAgents 8 "bogus" emptyCtx
    [⟨1, "planning", Action.processed, none⟩] 1 (by decide) (by decide) rfl

/-- C4 (counterexample to the claim as stated): in a context holding the
non-positive value `k = 0`, `RetrievalAgent.process` passes `0` — not the
default `5` — to `VectorIndex.search`: the search double records the `k`
it received, and it received `0`. -/
theorem nonpositive_k_not_defaulted :
    retrievalK { emptyCtx with k := some 0 } = 0 ∧ (0 : Int) ≠ 5 ∧
      retrievalProcess searchSpy { emptyCtx with k := some 0 } =
        Except.ok
          ({ emptyCtx with
              k := some 0,
              retrievalResult := some
                { queryUsed := [], documentsFound := 1,
                  documents := [⟨"spy", [], some 0, "spy"⟩] } },
            some "analysis") := by
  refine ⟨rfl, by decide, rfl⟩

/-- C4 (amended): the default result count `5` is used exactly when the
key `k` is absent from the context; any present value — non-positive
included — is passed to `VectorIndex.search` unchanged.  The third
conjunct exhibits the argument of the actual `search` call through a
search double that records the `k` it received. -/
theorem retrieval_k_passthrough (ctx : Ctx) :
    (ctx.k = none → retrievalK ctx = 5) ∧
      (∀ v : Int, ctx.k = some v → retrievalK ctx = v) ∧
      retrievalProcess searchSpy ctx =
        Except.ok
          ({ ctx with
              retrievalResult := some
                { queryUsed := retrievalQuery ctx, documentsFound := 1,
                  documents := [⟨"spy", [], some ((retrievalK ctx : Int) : ℚ), "spy"⟩] } },
            some "analysis") := by
  refine ⟨?_, ?_, rfl⟩
  · intro h
    unfold retrievalK
    rw [h]
    rfl
  · intro v h
    unfold retrievalK
    rw [h]
    rfl

/-- Witness for the amended C4: a context holding `k = -3` leads to a
search call with `-3`. -/
theorem retrieval_k_passthrough_witness :
    ({ emptyCtx with k := some (-3) } : Ctx).k = some (-3) ∧
      retrievalK { emptyCtx with k := some (-3) } = -3 :=
  ⟨rfl, (retrieval_k_passthrough { emptyCtx with k := some (-3) }).2.1 (-3) rfl⟩

/-- C5 (counterexample to the claim as stated): a store fault does not
surface as an explicit error — `RetrievalService.retrieve` catches it and
returns the empty list, which is exactly what a fault-free search with no
matches returns, so "search unavailable" and "no matches" are
indistinguishable and no fault ever propagates to the engine. -/
theorem store_fault_returns_empty_list :
    retrieve (fun _ _ => Except.error "store unreachable") "query".data 5 = [] ∧
      retrieve (fun _ _ => Except.ok ⟨[], [], [], none⟩) "query".data 5 = [] :=
  ⟨rfl, rfl⟩

/-- C5 (amended): `RetrievalService.retrieve` absorbs every fault of the
underlying store and returns the silent empty list — the same value a
successful search with no matches yields — so no retrieval fault reaches
the engine and no `error` trace entry can arise from it. -/
theorem retrieve_absorbs_store_faults :
    (∀ (e : String) (query : List Char) (k : Int),
        retrieve (fun _ _ => Except.error e) query k = []) ∧
      (∀ (query : List Char) (k : Int),
        retrieve (fun _ _ => Except.ok ⟨[], [], [], none⟩) query k = []) :=
  ⟨fun _ _ _ => rfl, fun _ _ => rfl⟩

/-- C8 (counterexample to the claim as stated): reformulation is not
idempotent.  For the input `"whwhat at x"`, removing `"what "` merges the
surrounding text into a fresh `"what "` occurrence (Python's `replace`
does not rescan), so one application yields `"what x"` and a second
application yields `"x"`. -/
theorem reformulate_not_idempotent :
    reformulateQuery "whwhat at x".data = "what x".data ∧
      reformulateQuery (reformulateQuery "whwhat at x".data) ≠
        reformulateQuery "whwhat at x".data := by
  decide

/-- C8 (amended): reformulation maps `"What is CFDI?"` to `"is cfdi?"`,
and that particular output is a fixed point of the reformulation; but
idempotence does not hold for every input. -/
theorem reformulate_cfdi_fixed_point :
    reformulateQuery "What is CFDI?".data = "is cfdi?".data ∧
      reformulateQuery "is cfdi?".data = "is cfdi?".data := by
  decide

/-- Helper: a pattern whose first character differs from `c` is not a
substring of any run of `c`s. -/
theorem containsSub_cons_replicate (p : Char) (ps : List Char) (c : Char)
    (hpc : (p == c) = false) :
    ∀ n, containsSub (p :: ps) (List.replicate n c) = false := by
  intro n
  induction n with
  | zero => rfl
  | succ n ih =>
    rw [List.replicate_succ]
    show (List.isPrefixOf (p :: ps) (c :: List.replicate n c) ||
      containsSub (p :: ps) (List.replicate n c)) = false
    rw [ih]
    simp [List.isPrefixOf, hpc]

/-- Helper: lower-casing the all-`'z'` response changes nothing. -/
theorem lowerStr_longResponse : lowerStr longResponse = longResponse := by
  unfold longResponse lowerStr
  rw [List.map_replicate, show Char.toLower 'z' = 'z' from by decide]

/-- Helper: no sensitive pattern occurs in the lower-cased all-`'z'`
response (each pattern's first character is not `'z'`). -/
theorem longResponse_no_sensitive :
    ∀ p ∈ sensitivePatterns, containsSub p.data (lowerStr longResponse) = false := by
  intro p hp
  rw [lowerStr_longResponse]
  show containsSub p.data (List.replicate 2001 'z') = false
  rcases (by simpa [sensitivePatterns] using hp :
      p = "password" ∨ p = "ssn" ∨ p = "credit card" ∨ p = "api key")
    with rfl | rfl | rfl | rfl
  · exact containsSub_cons_replicate 'p' "assword".data 'z' (by decide) 2001
  · exact containsSub_cons_replicate 's' "sn".data 'z' (by decide) 2001
  · exact containsSub_cons_replicate 'c' "redit card".data 'z' (by decide) 2001
  · exact containsSub_cons_replicate 'a' "pi key".data 'z' (by decide) 2001

/-- Helper: the all-`'z'` response is 2001 characters long. -/
theorem longResponse_length : 2000 < longResponse.length := by
  unfold longResponse
  rw [List.length_replicate]
  decide

/-- Helper: the full output of `GuardAgent._check_policies` on a response
that is longer than 2000 characters and contains no sensitive term. -/
theorem checkPolicies_long_clean (response : List Char)
    (hlen : 2000 < response.length)
    (hclean : ∀ p ∈ sensitivePatterns, containsSub p.data (lowerStr response) = false) :
    checkPolicies response =
      { approved := false
        violations := ["Response is very long and may need human review"]
        requiresReview := true } := by
  have h1 := hclean "password" (by decide)
  have h2 := hclean "ssn" (by decide)
  have h3 := hclean "credit card" (by decide)
  have h4 := hclean "api key" (by decide)
  unfold checkPolicies
  simp only [sensitivePatterns, List.foldl_cons, List.foldl_nil, h1, h2, h3, h4,
    Bool.false_eq_true, if_false, if_pos hlen]
  simp

/-- C9 (counterexample to the claim as stated): a 2001-character response
containing no sensitive term gets a length violation and requires review,
but `policy_approved` is affected: it becomes `false`, because the code
computes `approved = len(violations) == 0` over all violations, length
violations included — approval does not track content safety only. -/
theorem length_violation_not_independent_of_approval :
    (∀ p ∈ sensitivePatterns, containsSub p.data (lowerStr longResponse) = false) ∧
      (checkPolicies longResponse).requiresReview = true ∧
      (checkPolicies longResponse).approved = false := by
  refine ⟨longResponse_no_sensitive, ?_, ?_⟩ <;>
    rw [checkPolicies_long_clean longResponse longResponse_length
      longResponse_no_sensitive]

/-- C9 (amended): for every response longer than 2000 characters with no
sensitive term, `GuardAgent._check_policies` records the length violation
and requires human review, and — since approval is the emptiness of the
whole violation list — `policy_approved` becomes `false` as well. -/
theorem long_clean_response_review_and_disapproval (response : List Char)
    (hlen : 2000 < response.length)
    (hclean : ∀ p ∈ sensitivePatterns, containsSub p.data (lowerStr response) = false) :
    (checkPolicies response).requiresReview = true ∧
      "Response is very long and may need human review" ∈
        (checkPolicies response).violations ∧
      (checkPolicies response).approved = false := by
  have h1 := hclean "password" (by decide)
  have h2 := hclean "ssn" (by decide)
  have h3 := hclean "credit card" (by decide)
  have h4 := hclean "api key" (by decide)
  unfold checkPolicies
  simp only [sensitivePatterns, List.foldl_cons, List.foldl_nil, h1, h2, h3, h4,
    Bool.false_eq_true, if_false, if_pos hlen]
  simp

/-- Witness for the amended C9: the 2001-character all-`'z'` response. -/
theorem long_clean_response_review_and_disapproval_witness :
    (2000 < longResponse.length ∧
        ∀ p ∈ sensitivePatterns, containsSub p.data (lowerStr longResponse) = false) ∧
      (checkPolicies longResponse).requiresReview = true ∧
        "Response is very long and may need human review" ∈
          (checkPolicies longResponse).violations ∧
        (checkPolicies longResponse).approved = false :=
  ⟨⟨longResponse_length, longResponse_no_sensitive⟩,
    long_clean_response_review_and_disapproval longResponse longResponse_length
      longResponse_no_sensitive⟩

/-- Helper: `dictGet m name = none` says exactly that no entry of `m` is
keyed by `name`. -/
theorem dictGet_eq_none_iff (m : List (String × String)) (name : String) :
    dictGet m name = none ↔ ∀ q ∈ m, ¬(q.1 = name) := by
  simp [dictGet, List.find?_eq_none]

/-- Helper: writing a key different from `name` cannot create an entry
keyed by `name`. -/
theorem dictSet_preserves_absent (m : List (String × String))
    (key val name : String) (hk : ¬(key = name))
    (h : ∀ q ∈ m, ¬(q.1 = name)) :
    ∀ q ∈ dictSet m key val, ¬(q.1 = name) := by
  intro q hq
  unfold dictSet at hq
  by_cases hany : m.any (fun p => p.1 = key)
  · rw [if_pos hany] at hq
    rcases List.mem_map.mp hq with ⟨p, hp, hfq⟩
    by_cases hpk : p.1 = key
    · rw [if_pos hpk] at hfq
      rw [← hfq]
      exact hk
    · rw [if_neg hpk] at hfq
      rw [← hfq]
      exact h p hp
  · rw [if_neg hany] at hq
    rcases List.mem_append.mp hq with hq | hq
    · exact h q hq
    · rcases List.mem_singleton.mp hq with rfl
      exact hk

/-- Helper: one loop iteration of `_execute_tools` never writes an entry
for a name absent from the registry. -/
theorem executeToolsStep_preserves_absent (registry : ToolRegistry)
    (question : List Char) (name : String) (acc : List (String × String))
    (toolName : String) (hreg : registryLookup registry name = none)
    (h : ∀ q ∈ acc, ¬(q.1 = name)) :
    ∀ q ∈ executeToolsStep registry question acc toolName, ¬(q.1 = name) := by
  unfold executeToolsStep
  cases hl : registryLookup registry toolName with
  | none => exact h
  | some tool =>
    dsimp only
    have ht : ¬(toolName = name) := by
      intro heq
      rw [heq, hreg] at hl
      cases hl
    by_cases hw : toolName = "wikipedia_search"
    · rw [if_pos hw]
      cases tool question with
      | ok result => exact dictSet_preserves_absent acc toolName result name ht h
      | error e => exact dictSet_preserves_absent acc toolName _ name ht h
    · rw [if_neg hw]
      exact dictSet_preserves_absent acc toolName _ name ht h

/-- Helper: the whole `_execute_tools` loop preserves the absence of an
unregistered name, for every accumulator. -/
theorem executeTools_foldl_absent (registry : ToolRegistry)
    (question : List Char) (name : String)
    (hreg : registryLookup registry name = none) :
    ∀ (requiredTools : List String) (acc : List (String × String)),
      (∀ q ∈ acc, ¬(q.1 = name)) →
      ∀ q ∈ requiredTools.foldl (executeToolsStep registry question) acc,
        ¬(q.1 = name) := by
  intro requiredTools
  induction requiredTools with
  | nil => intro acc h; exact h
  | cons t ts ih =>
    intro acc h
    exact ih (executeToolsStep registry question acc t)
      (executeToolsStep_preserves_absent registry question name acc t hreg h)

/-- C10: a tool name absent from the ToolRegistry produces no entry at
all in `tool_results` — the unregistered tool is silently skipped, with
no error string; and `_execute_tools` is a total function (every fault of
a registered tool is converted inline to an error string), so tool
execution never raises out of the stage. -/
theorem unregistered_tool_silently_skipped (registry : ToolRegistry)
    (requiredTools : List String) (question : List Char) (toolName : String)
    (hreg : registryLookup registry toolName = none) :
    dictGet (executeTools registry requiredTools question) toolName = none := by
  rw [dictGet_eq_none_iff]
  exact executeTools_foldl_absent registry question toolName hreg requiredTools []
    (by intro q hq; cases hq)

/-- Witness for C10: a registry holding only `"consultar_cfdi"`; requesting
the unregistered `"consultar_curp"` alongside it leaves no
`"consultar_curp"` entry in the results. -/
theorem unregistered_tool_silently_skipped_witness :
    registryLookup exampleRegistry "consultar_curp" = none ∧
      dictGet
        (executeTools exampleRegistry ["consultar_curp", "consultar_cfdi"] [])
        "consultar_curp" = none :=
  ⟨rfl, unregistered_tool_silently_skipped exampleRegistry
    ["consultar_curp", "consultar_cfdi"] [] "consultar_curp" rfl⟩

end SentinelMCP
